import Mathlib

/-!
# Verification of `panic-serial` (src/lib.rs)

A shallow embedding of the `panic-serial` crate: the `_print_panic`
rendering routine, the panic handler generated by `impl_panic_handler`,
and `share_serial_port_with_panic`.

The sink is modelled by a failure oracle (`SinkBehavior`) saying which
write/flush operations fail; every sink operation the code attempts is
recorded in a log, and — exactly as in the source, where every result is
discarded with `_ = ...` — the success or failure of an operation never
influences control flow.
-/

namespace PanicSerial

/-- `core::panic::Location`: file, line and column of the panic site. -/
structure Location where
  file : String
  line : Nat
  column : Nat
  deriving DecidableEq, Repr

/-- The part of `core::panic::PanicInfo` that `_print_panic` consumes:
`info.location()` and `info.message().as_str()` (the plain-text message,
when one is extractable). -/
structure PanicInfo where
  location : Option Location
  message : Option String
  deriving DecidableEq, Repr

/-- A single operation attempted on the sink: `flush()` or `write_str(s)`. -/
inductive SinkOp where
  | flush : SinkOp
  | write (s : String) : SinkOp
  deriving DecidableEq, Repr

/-- Failure oracle for the sink: which operations return an error. -/
structure SinkBehavior where
  failFlush : Bool
  failWrite : String → Bool

/-- A sink that never fails. -/
def reliable : SinkBehavior := ⟨false, fun _ => false⟩

abbrev WriteLog := List SinkOp

/-- `w.write_str(s)`: the attempt is logged; the result is error or ok
according to the oracle. -/
def writeStr (b : SinkBehavior) (log : WriteLog) (s : String) :
    WriteLog × Except Unit Unit :=
  (log ++ [SinkOp.write s], if b.failWrite s then Except.error () else Except.ok ())

/-- `port.flush()`: the attempt is logged; the result is error or ok
according to the oracle. -/
def flushSink (b : SinkBehavior) (log : WriteLog) : WriteLog × Except Unit Unit :=
  (log ++ [SinkOp.flush], if b.failFlush then Except.error () else Except.ok ())

/-- The bytes produced by
`ufmt::uwrite!(w, "Panic at {}:{}:{}", location.file(), location.line(), location.column())`. -/
def formatLocation (loc : Location) : String :=
  "Panic at " ++ loc.file ++ ":" ++ Nat.repr loc.line ++ ":" ++ Nat.repr loc.column

/-- `_print_panic` from `src/lib.rs`, threading the log of attempted sink
operations.  Each `_ = ...` of the source discards the operation's result,
exactly as here: the `Except` component is dropped on the floor. -/
def _print_panic (b : SinkBehavior) (locF msgF : Bool) (info : PanicInfo)
    (log : WriteLog) : WriteLog :=
  let log :=
    if locF then
      match info.location with
      | some loc =>
        let (log, _) := writeStr b log (formatLocation loc)
        let (log, _) := writeStr b log (if msgF then ": " else "\r\n")
        log
      | none => log
    else log
  let log :=
    if msgF then
      match info.message with
      | some s =>
        let (log, _) := writeStr b log s
        let (log, _) := writeStr b log "\r\n"
        log
      | none => log
    else log
  if !msgF && !locF then
    let (log, _) := writeStr b log "PANIC !\r\n"
    log
  else log

/-- The write log produced by one call of `_print_panic`, starting empty. -/
def printLog (b : SinkBehavior) (locF msgF : Bool) (info : PanicInfo) : WriteLog :=
  _print_panic b locF msgF info []

/-- The byte sequence a log's write operations carry, concatenated. -/
def writtenString (log : WriteLog) : String :=
  String.join (log.filterMap fun op =>
    match op with
    | SinkOp.flush => none
    | SinkOp.write s => some s)

/-- The exact byte sequence `_print_panic` sends to a non-failing sink. -/
def output (locF msgF : Bool) (info : PanicInfo) : String :=
  writtenString (printLog reliable locF msgF info)

/-- An event of the generated panic handler: an operation on the sink `p`
held in `PANIC_PORT`, or the `compiler_fence` issued by the halt loop. -/
inductive PEvent (S : Type) where
  | sinkOp (sink : S) (op : SinkOp) : PEvent S
  | fence : PEvent S
  deriving DecidableEq, Repr

/-- `loop { compiler_fence(SeqCst) }`, unfolded for `fuel` iterations:
each iteration emits exactly one fence event. -/
def haltLoop (S : Type) : Nat → List (PEvent S)
  | 0 => []
  | n + 1 => PEvent.fence :: haltLoop S n

/-- The `panic` function defined by `impl_panic_handler`, as the trace of
events it performs, observing the first `fuel` iterations of the halt
loop: if `PANIC_PORT` is `Some`, flush it and run `_print_panic` on it;
either way, enter the halt loop. -/
def panicHandler {S : Type} (b : SinkBehavior) (locF msgF : Bool)
    (slot : Option S) (info : PanicInfo) (fuel : Nat) : List (PEvent S) :=
  let rendered : List (PEvent S) :=
    match slot with
    | some p =>
      let (log, _) := flushSink b []
      let log := _print_panic b locF msgF info log
      log.map (fun op => PEvent.sinkOp p op)
    | none => []
  rendered ++ haltLoop S fuel

/-- `share_serial_port_with_panic` from `impl_panic_handler`: sets
`PANIC_PORT = Some(port)`, then returns `PANIC_PORT.as_mut().unwrap()`.
The state is the global slot; the `unwrap` is modelled as an `Except`
whose error case is the `None` branch (a panic in the source). -/
def share_serial_port_with_panic {S : Type} (_slot : Option S) (port : S) :
    Option S × Except Unit S :=
  let slot := some port
  (slot,
    match slot with
    | some p => Except.ok p
    | none => Except.error ())

/-! ## Helper lemmas -/

/-- `_print_panic` only appends to the log it is given. -/
theorem print_panic_append (b : SinkBehavior) (locF msgF : Bool)
    (info : PanicInfo) (log : WriteLog) :
    _print_panic b locF msgF info log = log ++ printLog b locF msgF info := by
  rcases info with ⟨loc, msg⟩
  cases locF <;> cases msgF <;> cases loc <;> cases msg <;>
    simp [printLog, _print_panic, writeStr]

/-- The halt loop's trace is `fuel` fence events. -/
theorem haltLoop_eq_replicate (S : Type) (fuel : Nat) :
    haltLoop S fuel = List.replicate fuel PEvent.fence := by
  induction fuel with
  | zero => rfl
  | succ n ih => simp [haltLoop, ih, List.replicate_succ]

/-- With a populated slot, the handler trace is the flush, then the writes
of `_print_panic`, then the halt loop — all on the slot's sink. -/
theorem panicHandler_some (S : Type) (b : SinkBehavior) (locF msgF : Bool)
    (p : S) (info : PanicInfo) (fuel : Nat) :
    panicHandler b locF msgF (some p) info fuel =
      PEvent.sinkOp p SinkOp.flush ::
        ((printLog b locF msgF info).map (fun op => PEvent.sinkOp p op)
          ++ haltLoop S fuel) := by
  simp [panicHandler, flushSink, print_panic_append]

/-! ## Claims -/

/-- C1: for each of the four compile-time rendering modes, `_print_panic`
on a fault carrying both a location and a plain-text message writes
exactly the byte sequence of the spec's table — Full:
`Panic at <file>:<line>:<col>: <message>\r\n`; Location-only:
`Panic at <file>:<line>:<col>\r\n`; Message-only: `<message>\r\n`;
Minimal: `PANIC !\r\n` — CRLF terminator included. -/
theorem C1_four_modes_exact (f : String) (l c : Nat) (m : String) :
    output true true ⟨some ⟨f, l, c⟩, some m⟩ =
      "Panic at " ++ f ++ ":" ++ Nat.repr l ++ ":" ++ Nat.repr c ++ ": " ++ m ++ "\r\n" ∧
    output true false ⟨some ⟨f, l, c⟩, some m⟩ =
      "Panic at " ++ f ++ ":" ++ Nat.repr l ++ ":" ++ Nat.repr c ++ "\r\n" ∧
    output false true ⟨some ⟨f, l, c⟩, some m⟩ = m ++ "\r\n" ∧
    output false false ⟨some ⟨f, l, c⟩, some m⟩ = "PANIC !\r\n" := by
  refine ⟨?_, ?_, ?_, ?_⟩ <;>
    simp [output, printLog, _print_panic, writeStr, writtenString, formatLocation,
      String.join, reliable]

/-- C2: in Minimal mode (neither feature enabled), `_print_panic` emits
the constant byte sequence `PANIC !\r\n` for every fault record, and its
write log is that single write, whatever the oracle. -/
theorem C2_minimal_invariant (b : SinkBehavior) (info : PanicInfo) :
    output false false info = "PANIC !\r\n" ∧
    printLog b false false info = [SinkOp.write "PANIC !\r\n"] := by
  exact ⟨rfl, rfl⟩

/-- C3: with the location feature enabled and a record carrying no
location, `_print_panic` writes no location segment at all (with the
message feature off it writes nothing), and in Full mode with a
plain-text message present the output is exactly `<message>\r\n`. -/
theorem C3_location_omitted (b : SinkBehavior) (info : PanicInfo) (m : String)
    (hloc : info.location = none) (hmsg : info.message = some m) :
    printLog b true true info = [SinkOp.write m, SinkOp.write "\r\n"] ∧
    output true true info = m ++ "\r\n" ∧
    printLog b true false info = [] := by
  refine ⟨?_, ?_, ?_⟩ <;>
    simp [output, printLog, _print_panic, writeStr, writtenString, hloc, hmsg,
      String.join]

/-- C3 witness: a record with no location and message `boom`. -/
theorem C3_location_omitted_witness :
    printLog reliable true true ⟨none, some "boom"⟩ =
      [SinkOp.write "boom", SinkOp.write "\r\n"] ∧
    output true true ⟨none, some "boom"⟩ = "boom" ++ "\r\n" ∧
    printLog reliable true false ⟨none, some "boom"⟩ = [] :=
  C3_location_omitted reliable ⟨none, some "boom"⟩ "boom" rfl rfl

/-- C4: in Full mode, when the record carries neither a location nor an
extractable message, `_print_panic` performs zero writes and the rendered
output is empty — no fallback to the Minimal-mode message. -/
theorem C4_full_mode_empty (b : SinkBehavior) :
    printLog b true true ⟨none, none⟩ = [] ∧
    output true true ⟨none, none⟩ = "" := by
  exact ⟨rfl, rfl⟩

/-- C5: with no sink registered (slot `none`), the panic handler performs
zero sink operations — its whole trace is the halt loop's fences, and
before the first loop iteration it has done nothing at all. -/
theorem C5_no_sink_no_writes (S : Type) (b : SinkBehavior) (locF msgF : Bool)
    (info : PanicInfo) (fuel : Nat) :
    panicHandler b locF msgF (none : Option S) info fuel =
      List.replicate fuel PEvent.fence ∧
    panicHandler b locF msgF (none : Option S) info 0 = [] := by
  constructor
  · simp [panicHandler, haltLoop_eq_replicate]
  · rfl

/-- C6: with a sink registered, the handler's first action is the flush
(before any rendering write); every write/flush failure is discarded, so
the attempted-operation trace is the same as with a never-failing sink;
and the handler still reaches the halt loop. -/
theorem C6_flush_first_failures_discarded (S : Type) (b : SinkBehavior)
    (locF msgF : Bool) (p : S) (info : PanicInfo) (fuel : Nat) :
    panicHandler b locF msgF (some p) info fuel =
      panicHandler reliable locF msgF (some p) info fuel ∧
    (panicHandler b locF msgF (some p) info fuel).head? =
      some (PEvent.sinkOp p SinkOp.flush) ∧
    panicHandler b locF msgF (some p) info fuel =
      panicHandler b locF msgF (some p) info 0 ++ List.replicate fuel PEvent.fence := by
  refine ⟨?_, ?_, ?_⟩
  · simp [panicHandler, _print_panic, flushSink, writeStr]
  · simp [panicHandler_some]
  · simp [panicHandler, haltLoop_eq_replicate]

/-- C7: `share_serial_port_with_panic` stores the sink into the slot
(the slot becomes `some port`) and returns a handle to that stored value;
the internal `unwrap` succeeds (`Except.ok`, never the `error` branch). -/
theorem C7_registration_stores (S : Type) (slot : Option S) (port : S) :
    share_serial_port_with_panic slot port = (some port, Except.ok port) :=
  rfl

/-- C8: a second registration is not rejected: after registering `a` and
then `bp`, the slot holds `bp` (`a` is silently replaced), the result is
again `ok`, and every sink operation of any subsequent fault goes to
`bp`. -/
theorem C8_double_registration_replaces (S : Type) (slot : Option S) (a bp : S) :
    ((share_serial_port_with_panic
        (share_serial_port_with_panic slot a).1 bp).1 = some bp ∧
      (share_serial_port_with_panic
        (share_serial_port_with_panic slot a).1 bp).2 = Except.ok bp) ∧
    ∀ (b : SinkBehavior) (locF msgF : Bool) (info : PanicInfo) (fuel : Nat)
      (s : S) (op : SinkOp),
      PEvent.sinkOp s op ∈
        panicHandler b locF msgF
          (share_serial_port_with_panic
            (share_serial_port_with_panic slot a).1 bp).1 info fuel →
      s = bp := by
  refine ⟨⟨rfl, rfl⟩, ?_⟩
  intro b locF msgF info fuel s op hmem
  rw [show (share_serial_port_with_panic
      (share_serial_port_with_panic slot a).1 bp).1 = some bp from rfl,
    panicHandler_some, haltLoop_eq_replicate] at hmem
  rcases List.mem_cons.mp hmem with h | h
  · injection h with h1 h2
  · rcases List.mem_append.mp h with h | h
    · obtain ⟨op', -, heq⟩ := List.mem_map.mp h
      injection heq with h1 h2
      exact h1.symm
    · exact absurd (List.eq_of_mem_replicate h) (by simp)

/-- C8 witness: registering sink `1` then sink `2` over `Nat`, with the
membership hypothesis discharged on the flush event of a concrete
handler run. -/
theorem C8_double_registration_replaces_witness :
    ((share_serial_port_with_panic
        (share_serial_port_with_panic (none : Option Nat) 1).1 2).1 = some 2 ∧
      (share_serial_port_with_panic
        (share_serial_port_with_panic (none : Option Nat) 1).1 2).2 = Except.ok 2) ∧
    (2 : Nat) = 2 := by
  obtain ⟨hpair, hall⟩ := C8_double_registration_replaces Nat none 1 2
  refine ⟨hpair, hall reliable true true ⟨none, none⟩ 1 2 SinkOp.flush ?_⟩
  decide

/-- C9: after the optional flush-and-render prefix (the `fuel = 0` trace),
the handler's trace is that prefix followed by fence events only — no
further sink write or flush ever occurs — and the loop always progresses:
each further iteration appends exactly one more fence event, so the trace
grows without bound and the handler never returns. -/
theorem C9_halt_forever (S : Type) (b : SinkBehavior) (locF msgF : Bool)
    (slot : Option S) (info : PanicInfo) (fuel : Nat) :
    panicHandler b locF msgF slot info fuel =
      panicHandler b locF msgF slot info 0 ++ List.replicate fuel PEvent.fence ∧
    panicHandler b locF msgF slot info (fuel + 1) =
      panicHandler b locF msgF slot info fuel ++ [PEvent.fence] ∧
    (panicHandler b locF msgF slot info fuel).length =
      (panicHandler b locF msgF slot info 0).length + fuel := by
  refine ⟨?_, ?_, ?_⟩
  · simp [panicHandler, haltLoop_eq_replicate]
  · simp only [panicHandler, haltLoop_eq_replicate, List.append_assoc]
    rw [List.replicate_succ']
  · simp [panicHandler, haltLoop_eq_replicate]

/-- C10: in Full mode, a record with a location but no extractable
message renders exactly `Panic at <file>:<line>:<col>: ` — the trailing
`: ` separator is still emitted and no message and no `\r\n` follow. -/
theorem C10_location_only_trailing_separator (b : SinkBehavior)
    (f : String) (l c : Nat) :
    printLog b true true ⟨some ⟨f, l, c⟩, none⟩ =
      [SinkOp.write (formatLocation ⟨f, l, c⟩), SinkOp.write ": "] ∧
    output true true ⟨some ⟨f, l, c⟩, none⟩ =
      "Panic at " ++ f ++ ":" ++ Nat.repr l ++ ":" ++ Nat.repr c ++ ": " := by
  constructor
  · simp [printLog, _print_panic, writeStr]
  · simp [output, printLog, _print_panic, writeStr, writtenString, formatLocation,
      String.join, reliable]

end PanicSerial
